import Mathlib

/-
Verification development for cdecl's semantic declaration model:
the composite bitmask type system (src/c_type.c), the AST kind taxonomy
and English renderer (src/ast.c), and scoped names (src/c_sname.h).

C bitmask values (`c_type_t`, `c_lang_t`) are embedded as `Nat` bitmasks;
`bool` functions become `Bool`; functions that can only fail by crashing
or by raising an internal error return `Option`.
-/

namespace Cdecl

/--
Modelled from the spec: `c_lang.h` is not under `src/` (only its users are).
Per the spec, dialects range over K&R C, C89..C11 and C++98..C++latest; the
dialects named by the sources under `src/` are `C_KNR`, `C_89`, `C_95`,
`C_99`, `C_11`, `CPP_MIN` (C++98), `CPP_03`, `CPP_11`, `CPP_14`, `CPP_17`.
A `c_lang_t` is a bitmask of dialects; the C dialects occupy the low bits
and the C++ dialects the high bits, so that `opt_lang >= LANG_CPP_MIN`
(a scalar comparison on a single-dialect value) means "is a C++ dialect".
-/
inductive Lang where
  | c_knr | c_89 | c_95 | c_99 | c_11
  | cpp_98 | cpp_03 | cpp_11 | cpp_14 | cpp_17
  deriving DecidableEq

/-- Bit index of each dialect (C dialects below C++ dialects). -/
def langIdx : Lang → Nat
  | .c_knr => 0
  | .c_89 => 1
  | .c_95 => 2
  | .c_99 => 3
  | .c_11 => 4
  | .cpp_98 => 5
  | .cpp_03 => 6
  | .cpp_11 => 7
  | .cpp_14 => 8
  | .cpp_17 => 9

/-- Single-dialect language bit (the value of `opt_lang` for that dialect). -/
def langBit (l : Lang) : Nat := 2 ^ langIdx l

/-- Language set containing no dialect. -/
def LANG_NONE : Nat := 0

/-- Language set containing every dialect (10 bits). -/
def LANG_ALL : Nat := 1023

/-- Language set of every dialect at least `l` (bits `langIdx l` .. 9). -/
def LANG_MIN (l : Lang) : Nat := 1024 - langBit l

/-- Language set of every dialect at most `l` (bits 0 .. `langIdx l`). -/
def LANG_MAX (l : Lang) : Nat := 2 * langBit l - 1

/-- Language set of all C++ dialects. -/
def LANG_CPP_ALL : Nat := LANG_MIN .cpp_98

/-- Scalar value of the lowest C++ dialect. -/
def LANG_CPP_MIN : Nat := langBit .cpp_98

/-- Language set containing only K&R C. -/
def LANG_C_KNR : Nat := langBit .c_knr

/-- Language set containing only C89. -/
def LANG_C_89 : Nat := langBit .c_89

/-- Language set containing only C11. -/
def LANG_C_11 : Nat := langBit .c_11

/--
Modelled from the spec: `c_type.h` is not under `src/`.  Per the spec a
`c_type_t` is one bitmask partitioned into four axes (attributes,
qualifiers, storage classes, base types); the individual bit values are
distinct powers of two.  Attribute bits occupy positions 0-4, qualifier
bits 5-10, storage bits 11-27 and base-type bits 28-49, in the order of
the corresponding `C_*_INFO` tables of `src/c_type.c`.
-/
def T_NONE : Nat := 0

def T_CARRIES_DEPENDENCY : Nat := 2 ^ 0

def T_DEPRECATED : Nat := 2 ^ 1

def T_MAYBE_UNUSED : Nat := 2 ^ 2

def T_NODISCARD : Nat := 2 ^ 3

def T_NORETURN : Nat := 2 ^ 4

def T_MASK_ATTRIBUTE : Nat :=
  T_CARRIES_DEPENDENCY ||| T_DEPRECATED ||| T_MAYBE_UNUSED ||| T_NODISCARD ||| T_NORETURN

def T_ATOMIC : Nat := 2 ^ 5

def T_CONST : Nat := 2 ^ 6

def T_REFERENCE : Nat := 2 ^ 7

def T_RVALUE_REFERENCE : Nat := 2 ^ 8

def T_RESTRICT : Nat := 2 ^ 9

def T_VOLATILE : Nat := 2 ^ 10

def T_AUTO_C : Nat := 2 ^ 11

def T_BLOCK : Nat := 2 ^ 12

def T_EXTERN : Nat := 2 ^ 13

def T_REGISTER : Nat := 2 ^ 14

def T_STATIC : Nat := 2 ^ 15

def T_THREAD_LOCAL : Nat := 2 ^ 16

def T_TYPEDEF : Nat := 2 ^ 17

def T_CONSTEXPR : Nat := 2 ^ 18

def T_FINAL : Nat := 2 ^ 19

def T_FRIEND : Nat := 2 ^ 20

def T_INLINE : Nat := 2 ^ 21

def T_MUTABLE : Nat := 2 ^ 22

def T_NOEXCEPT : Nat := 2 ^ 23

def T_OVERRIDE : Nat := 2 ^ 24

def T_THROW : Nat := 2 ^ 25

def T_VIRTUAL : Nat := 2 ^ 26

def T_PURE_VIRTUAL : Nat := 2 ^ 27

def T_VOID : Nat := 2 ^ 28

def T_AUTO_CPP_11 : Nat := 2 ^ 29

def T_BOOL : Nat := 2 ^ 30

def T_CHAR : Nat := 2 ^ 31

def T_CHAR16_T : Nat := 2 ^ 32

def T_CHAR32_T : Nat := 2 ^ 33

def T_WCHAR_T : Nat := 2 ^ 34

def T_SHORT : Nat := 2 ^ 35

def T_INT : Nat := 2 ^ 36

def T_LONG : Nat := 2 ^ 37

def T_LONG_LONG : Nat := 2 ^ 38

def T_SIGNED : Nat := 2 ^ 39

def T_UNSIGNED : Nat := 2 ^ 40

def T_FLOAT : Nat := 2 ^ 41

def T_DOUBLE : Nat := 2 ^ 42

def T_COMPLEX : Nat := 2 ^ 43

def T_IMAGINARY : Nat := 2 ^ 44

def T_ENUM : Nat := 2 ^ 45

def T_STRUCT : Nat := 2 ^ 46

def T_UNION : Nat := 2 ^ 47

def T_CLASS : Nat := 2 ^ 48

def T_TYPEDEF_TYPE : Nat := 2 ^ 49

/--
Mapping between C type bits, literals, and valid language(s)
(struct `c_type_info` of `src/c_type.c`).  The literal strings themselves
come from `literals.h`, which is not under `src/`; they are modelled from
the spec's spelling descriptions.  `english = none` models a NULL
`english` field.
-/
structure c_type_info where
  type : Nat
  literal : String
  english : Option String
  ok_langs : Nat
  deriving DecidableEq

instance : Inhabited c_type_info := ⟨⟨T_NONE, "", none, LANG_NONE⟩⟩

/-- Table `C_ATTRIBUTE_INFO` of `src/c_type.c`. -/
def C_ATTRIBUTE_INFO : List c_type_info := [
  ⟨T_CARRIES_DEPENDENCY, "carries_dependency", some "carries dependency", LANG_MIN .cpp_11⟩,
  ⟨T_DEPRECATED, "deprecated", none, LANG_MIN .cpp_11⟩,
  ⟨T_MAYBE_UNUSED, "maybe_unused", some "maybe unused", LANG_MIN .cpp_17⟩,
  ⟨T_NODISCARD, "nodiscard", some "non-discardable", LANG_MIN .cpp_11⟩,
  ⟨T_NORETURN, "_Noreturn", some "non-returning", LANG_C_11 ||| LANG_MIN .cpp_11⟩
]

/-- Table `C_QUALIFIER_INFO` of `src/c_type.c`. -/
def C_QUALIFIER_INFO : List c_type_info := [
  ⟨T_ATOMIC, "_Atomic", some "atomic", LANG_MIN .c_11⟩,
  ⟨T_CONST, "const", some "constant", LANG_MIN .c_89⟩,
  ⟨T_REFERENCE, "reference", none, LANG_MIN .cpp_11⟩,
  ⟨T_RVALUE_REFERENCE, "rvalue reference", none, LANG_MIN .cpp_11⟩,
  ⟨T_RESTRICT, "restrict", some "restricted", LANG_MIN .c_89 &&& (LANG_ALL ^^^ LANG_CPP_ALL)⟩,
  ⟨T_VOLATILE, "volatile", none, LANG_MIN .c_89⟩
]

/-- Table `C_STORAGE_INFO` of `src/c_type.c`. -/
def C_STORAGE_INFO : List c_type_info := [
  ⟨T_AUTO_C, "auto", some "automatic", LANG_MAX .cpp_03⟩,
  ⟨T_BLOCK, "__block", none, LANG_ALL⟩,
  ⟨T_EXTERN, "extern", some "external", LANG_ALL⟩,
  ⟨T_REGISTER, "register", none, LANG_ALL⟩,
  ⟨T_STATIC, "static", none, LANG_ALL⟩,
  ⟨T_THREAD_LOCAL, "thread_local", none, LANG_C_11 ||| LANG_MIN .cpp_11⟩,
  ⟨T_TYPEDEF, "typedef", none, LANG_ALL⟩,
  ⟨T_CONSTEXPR, "constexpr", none, LANG_MIN .cpp_11⟩,
  ⟨T_FINAL, "final", none, LANG_MIN .cpp_11⟩,
  ⟨T_FRIEND, "friend", none, LANG_CPP_ALL⟩,
  ⟨T_INLINE, "inline", none, LANG_MIN .c_99⟩,
  ⟨T_MUTABLE, "mutable", none, LANG_MIN .cpp_98⟩,
  ⟨T_NOEXCEPT, "noexcept", some "no-exception", LANG_MIN .cpp_11⟩,
  ⟨T_OVERRIDE, "override", some "overridden", LANG_MIN .cpp_11⟩,
  ⟨T_THROW, "throw", some "non-throwing", LANG_MIN .cpp_98⟩,
  ⟨T_VIRTUAL, "virtual", none, LANG_CPP_ALL⟩,
  ⟨T_PURE_VIRTUAL, "pure", none, LANG_CPP_ALL⟩
]

/-- Table `C_TYPE_INFO` of `src/c_type.c`.  The literal of `T_LONG_LONG` is
only one `long` (it is always combined with `T_LONG`); the literal of
`T_TYPEDEF_TYPE` is the empty string (it has no printable representation). -/
def C_TYPE_INFO : List c_type_info := [
  ⟨T_VOID, "void", none, LANG_MIN .c_89⟩,
  ⟨T_AUTO_CPP_11, "auto", some "automatic", LANG_MIN .cpp_11⟩,
  ⟨T_BOOL, "bool", none, LANG_MIN .c_89⟩,
  ⟨T_CHAR, "char", none, LANG_ALL⟩,
  ⟨T_CHAR16_T, "char16_t", none, LANG_C_11 ||| LANG_MIN .cpp_11⟩,
  ⟨T_CHAR32_T, "char32_t", none, LANG_C_11 ||| LANG_MIN .cpp_11⟩,
  ⟨T_WCHAR_T, "wchar_t", none, LANG_MIN .c_95⟩,
  ⟨T_SHORT, "short", none, LANG_ALL⟩,
  ⟨T_INT, "int", none, LANG_ALL⟩,
  ⟨T_LONG, "long", none, LANG_ALL⟩,
  ⟨T_LONG_LONG, "long", none, LANG_MIN .c_89⟩,
  ⟨T_SIGNED, "signed", none, LANG_MIN .c_89⟩,
  ⟨T_UNSIGNED, "unsigned", none, LANG_ALL⟩,
  ⟨T_FLOAT, "float", none, LANG_ALL⟩,
  ⟨T_DOUBLE, "double", none, LANG_ALL⟩,
  ⟨T_COMPLEX, "_Complex", some "complex", LANG_MIN .c_99⟩,
  ⟨T_IMAGINARY, "_Imaginary", some "imaginary", LANG_MIN .c_99⟩,
  ⟨T_ENUM, "enum", some "enumeration", LANG_MIN .c_89⟩,
  ⟨T_STRUCT, "struct", some "structure", LANG_ALL⟩,
  ⟨T_UNION, "union", none, LANG_ALL⟩,
  ⟨T_CLASS, "class", none, LANG_CPP_ALL⟩,
  ⟨T_TYPEDEF_TYPE, "", none, LANG_ALL⟩
]

/- Shorthands used by the two triangular legality tables of `src/c_type.c`
(the source spells `OK` as `__`): `OK` = legal in all languages,
`XX` = legal in none, `KR` = K&R C only, `C8`/`C5`/`C9`/`C1` = minimum
C89/C95/C99/C11, `PP` = C++ only, `P3`/`P1` = minimum C++03/C++11,
`E1` = C11 or minimum C++11. -/
def OK : Nat := LANG_ALL

def XX : Nat := LANG_NONE

def KR : Nat := LANG_C_KNR

def C8 : Nat := LANG_MIN .c_89

def C5 : Nat := LANG_MIN .c_95

def C9 : Nat := LANG_MIN .c_99

def C1 : Nat := LANG_MIN .c_11

def PP : Nat := LANG_CPP_ALL

def P3 : Nat := LANG_MIN .cpp_03

def P1 : Nat := LANG_MIN .cpp_11

def E1 : Nat := LANG_C_11 ||| LANG_MIN .cpp_11

/-- Table `OK_STORAGE_LANGS` of `src/c_type.c`: legal combinations of
storage classes in languages.  Only the lower triangle is used.
Row/column order is that of `C_STORAGE_INFO`:
auto, block, extern, register, static, thread_local, typedef,
constexpr, final, friend, inline, mutable, noexcept, override, throw,
virtual, pure. -/
def OK_STORAGE_LANGS : List (List Nat) := [
  [OK,OK,OK,OK,OK,OK,OK, OK,OK,OK,OK,OK,OK,OK,OK,OK,OK],
  [OK,OK,OK,OK,OK,OK,OK, OK,OK,OK,OK,OK,OK,OK,OK,OK,OK],
  [XX,OK,OK,OK,OK,OK,OK, OK,OK,OK,OK,OK,OK,OK,OK,OK,OK],
  [XX,OK,XX,OK,OK,OK,OK, OK,OK,OK,OK,OK,OK,OK,OK,OK,OK],
  [XX,XX,XX,XX,OK,OK,OK, OK,OK,OK,OK,OK,OK,OK,OK,OK,OK],
  [XX,E1,E1,XX,E1,E1,OK, OK,OK,OK,OK,OK,OK,OK,OK,OK,OK],
  [XX,OK,XX,XX,XX,XX,OK, OK,OK,OK,OK,OK,OK,OK,OK,OK,OK],
  [P1,P1,P1,XX,P1,XX,XX, P1,OK,OK,OK,OK,OK,OK,OK,OK,OK],
  [XX,XX,XX,XX,XX,XX,XX, P1,P1,OK,OK,OK,OK,OK,OK,OK,OK],
  [XX,XX,XX,XX,XX,XX,XX, P1,XX,PP,OK,OK,OK,OK,OK,OK,OK],
  [XX,XX,C9,XX,C9,XX,XX, P1,P1,PP,C9,OK,OK,OK,OK,OK,OK],
  [XX,XX,XX,XX,XX,XX,XX, XX,XX,XX,XX,P3,OK,OK,OK,OK,OK],
  [XX,XX,P1,XX,P1,XX,P1, P1,P1,P1,P1,XX,P1,OK,OK,OK,OK],
  [XX,XX,XX,XX,XX,XX,XX, P1,P1,XX,C1,XX,C1,P1,OK,OK,OK],
  [XX,XX,PP,XX,PP,XX,PP, P1,PP,XX,PP,XX,XX,PP,PP,OK,OK],
  [XX,XX,XX,XX,XX,XX,XX, P1,P1,XX,PP,XX,C1,P1,PP,PP,OK],
  [XX,XX,XX,XX,XX,XX,XX, P1,XX,XX,PP,XX,C1,P1,PP,PP,PP]
]

/-- Table `OK_TYPE_LANGS` of `src/c_type.c`: legal combinations of types in
languages.  Only the lower triangle is used.  Row/column order is that of
`C_TYPE_INFO`:
void, auto, bool, char, char16_t, char32_t, wchar_t, short, int, long,
long long, signed, unsigned, float, double, complex, imaginary, enum,
struct, union, class, typedef-type. -/
def OK_TYPE_LANGS : List (List Nat) := [
  [C8,OK,OK,OK,OK,OK,OK,OK,OK,OK,OK,OK,OK,OK,OK,OK,OK,OK,OK,OK,OK,OK],
  [XX,P1,OK,OK,OK,OK,OK,OK,OK,OK,OK,OK,OK,OK,OK,OK,OK,OK,OK,OK,OK,OK],
  [XX,XX,C9,OK,OK,OK,OK,OK,OK,OK,OK,OK,OK,OK,OK,OK,OK,OK,OK,OK,OK,OK],
  [XX,XX,XX,OK,OK,OK,OK,OK,OK,OK,OK,OK,OK,OK,OK,OK,OK,OK,OK,OK,OK,OK],
  [XX,XX,XX,XX,E1,OK,OK,OK,OK,OK,OK,OK,OK,OK,OK,OK,OK,OK,OK,OK,OK,OK],
  [XX,XX,XX,XX,XX,E1,OK,OK,OK,OK,OK,OK,OK,OK,OK,OK,OK,OK,OK,OK,OK,OK],
  [XX,XX,XX,XX,XX,XX,C5,OK,OK,OK,OK,OK,OK,OK,OK,OK,OK,OK,OK,OK,OK,OK],
  [XX,XX,XX,XX,XX,XX,XX,OK,OK,OK,OK,OK,OK,OK,OK,OK,OK,OK,OK,OK,OK,OK],
  [XX,XX,XX,XX,XX,XX,XX,OK,OK,OK,OK,OK,OK,OK,OK,OK,OK,OK,OK,OK,OK,OK],
  [XX,XX,XX,XX,XX,XX,XX,XX,OK,OK,OK,OK,OK,OK,OK,OK,OK,OK,OK,OK,OK,OK],
  [XX,XX,XX,XX,XX,XX,XX,XX,C9,OK,C9,OK,OK,OK,OK,OK,OK,OK,OK,OK,OK,OK],
  [XX,XX,XX,C8,XX,XX,XX,C8,C8,C8,C8,C8,OK,OK,OK,OK,OK,OK,OK,OK,OK,OK],
  [XX,XX,XX,OK,XX,XX,XX,OK,OK,OK,C8,XX,OK,OK,OK,OK,OK,OK,OK,OK,OK,OK],
  [XX,XX,XX,XX,XX,XX,XX,XX,XX,KR,XX,XX,XX,OK,OK,OK,OK,OK,OK,OK,OK,OK],
  [XX,XX,XX,XX,XX,XX,XX,XX,XX,C8,XX,XX,XX,XX,OK,OK,OK,OK,OK,OK,OK,OK],
  [XX,XX,XX,XX,XX,XX,XX,XX,XX,XX,XX,XX,XX,C9,C9,C9,OK,OK,OK,OK,OK,OK],
  [XX,XX,XX,XX,XX,XX,XX,XX,XX,XX,XX,XX,XX,C9,C9,XX,C9,OK,OK,OK,OK,OK],
  [XX,XX,XX,XX,XX,XX,XX,XX,XX,XX,XX,XX,XX,XX,XX,XX,XX,C8,OK,OK,OK,OK],
  [XX,XX,XX,XX,XX,XX,XX,XX,XX,XX,XX,XX,XX,XX,XX,XX,XX,P1,OK,OK,OK,OK],
  [XX,XX,XX,XX,XX,XX,XX,XX,XX,XX,XX,XX,XX,XX,XX,XX,XX,XX,XX,OK,OK,OK],
  [XX,XX,XX,XX,XX,XX,XX,XX,XX,XX,XX,XX,XX,XX,XX,XX,XX,P1,XX,XX,PP,OK],
  [XX,XX,XX,XX,XX,XX,XX,XX,XX,XX,XX,XX,XX,XX,XX,XX,XX,XX,XX,XX,XX,OK]
]

/-- Function `is_long_int` of `src/c_type.c`: whether the type is some form
of `long int` and not `long float` (K&R) or `long double` (C89). -/
def is_long_int (type : Nat) : Bool :=
  (type &&& T_LONG != T_NONE) && (type &&& (T_FLOAT ||| T_DOUBLE) == T_NONE)

/-- The `long long` normalization step at the top of `c_type_add` of
`src/c_type.c`: if the existing type is "long" and the new type is "long",
turn the new type into "long long". -/
def c_type_add_normalized (dest_type new_type : Nat) : Nat :=
  if is_long_int dest_type && is_long_int new_type then T_LONG_LONG else new_type

/-- Function `c_type_add` of `src/c_type.c`.  The C function takes
`dest_type` by pointer and returns `bool`; it is embedded as returning the
pair (success flag, resulting `*dest_type`).  On failure the C function
prints a diagnostic and leaves `*dest_type` unchanged. -/
def c_type_add (dest_type new_type : Nat) : Bool × Nat :=
  if dest_type &&& c_type_add_normalized dest_type new_type != T_NONE then
    (false, dest_type)
  else
    (true, dest_type ||| c_type_add_normalized dest_type new_type)

/-! Small toolkit relating `Nat` bitmask operations to `Nat.testBit`. -/

theorem land_two_pow_ne_zero_iff (x i : Nat) : x &&& 2 ^ i ≠ 0 ↔ x.testBit i = true := by
  rw [Nat.and_two_pow]
  cases h : x.testBit i <;> simp [h, Nat.pow_eq_zero]

theorem lor_land_two_pow (x y i : Nat) :
    (x ||| y) &&& 2 ^ i ≠ 0 ↔ (x &&& 2 ^ i ≠ 0 ∨ y &&& 2 ^ i ≠ 0) := by
  simp only [land_two_pow_ne_zero_iff, Nat.testBit_or, Bool.or_eq_true]

/--
Claim C1, counterexample.  The claim states that whenever both `dest` and
`new_type` denote a bare "long" (the long bit set and neither float nor
double, i.e. `is_long_int`), the merge yields `dest` with both the long
and long-long bits set.  But for `dest = long long` (both bits already
set) and `new_type = long` (a single bit), both sides satisfy
`is_long_int`, yet `c_type_add` fails and leaves `dest` unchanged (the
normalized `new_type`, `T_LONG_LONG`, already occurs in `dest`): the code
rejects a third `long`.
-/
theorem claim_C1_counterexample :
    is_long_int (T_LONG ||| T_LONG_LONG) = true ∧
    is_long_int T_LONG = true ∧
    T_LONG = 2 ^ 37 ∧
    c_type_add (T_LONG ||| T_LONG_LONG) T_LONG = (false, T_LONG ||| T_LONG_LONG) := by
  refine ⟨by decide, by decide, rfl, by decide⟩

/--
Claim C1 (amended): for every type value `dest` and single-bit `new_type`,
`c_type_add dest new_type` succeeds exactly when `dest` and the
long-long-normalized `new_type` share no set bit, in which case the result
is their bitwise-or; if both `dest` and `new_type` denote a bare "long"
(long bit set, neither float nor double) and `dest` does not already have
the long-long bit, the merge yields `dest` with both the long and
long-long bits set; adding a bit that (after normalization) is already
present in `dest` fails, returns false, and leaves `dest` unchanged.
-/
theorem claim_C1_c_type_add (dest new_type : Nat) (hnew : ∃ i, new_type = 2 ^ i) :
    ((c_type_add dest new_type).1 = true ↔
        dest &&& c_type_add_normalized dest new_type = T_NONE) ∧
    (dest &&& c_type_add_normalized dest new_type = T_NONE →
        c_type_add dest new_type = (true, dest ||| c_type_add_normalized dest new_type)) ∧
    (is_long_int dest = true → is_long_int new_type = true →
      dest &&& T_LONG_LONG = T_NONE →
        c_type_add dest new_type = (true, dest ||| T_LONG_LONG) ∧
        (dest ||| T_LONG_LONG) &&& T_LONG ≠ T_NONE ∧
        (dest ||| T_LONG_LONG) &&& T_LONG_LONG ≠ T_NONE) ∧
    (dest &&& c_type_add_normalized dest new_type ≠ T_NONE →
        c_type_add dest new_type = (false, dest)) := by
  obtain ⟨i, rfl⟩ := hnew
  refine ⟨?_, ?_, ?_, ?_⟩
  · unfold c_type_add
    split <;> rename_i h <;> simp_all [T_NONE]
  · intro h
    unfold c_type_add
    split <;> rename_i h' <;> simp_all [T_NONE]
  · intro hd hn hll
    have hnorm : c_type_add_normalized dest (2 ^ i) = T_LONG_LONG := by
      simp [c_type_add_normalized, hd, hn]
    have hdl : dest &&& T_LONG ≠ T_NONE := by
      have := hd
      unfold is_long_int at this
      simp only [Bool.and_eq_true, bne_iff_ne, ne_eq, beq_iff_eq] at this
      exact this.1
    refine ⟨?_, ?_, ?_⟩
    · unfold c_type_add
      rw [hnorm]
      split <;> rename_i h' <;> simp_all [T_NONE]
    · show (dest ||| T_LONG_LONG) &&& T_LONG ≠ T_NONE
      rw [show T_LONG = 2 ^ 37 from rfl] at hdl ⊢
      rw [T_NONE] at hdl ⊢
      rw [lor_land_two_pow]
      exact Or.inl hdl
    · show (dest ||| T_LONG_LONG) &&& T_LONG_LONG ≠ T_NONE
      rw [show T_LONG_LONG = 2 ^ 38 from rfl, T_NONE, lor_land_two_pow]
      right
      rw [land_two_pow_ne_zero_iff]
      exact Nat.testBit_two_pow_self
  · intro h
    unfold c_type_add
    split <;> rename_i h' <;> simp_all [T_NONE]

/--
Claim C1, witness: adding `int` to `long` succeeds and yields `long int`;
adding `long` to `long` yields `long long`; adding `int` to `int` fails
and leaves the type unchanged.
-/
theorem claim_C1_witness :
    c_type_add T_LONG T_INT = (true, T_LONG ||| T_INT) ∧
    c_type_add T_LONG T_LONG = (true, T_LONG ||| T_LONG_LONG) ∧
    c_type_add T_INT T_INT = (false, T_INT) := by
  refine ⟨?_, ?_, ?_⟩
  · exact (claim_C1_c_type_add T_LONG T_INT ⟨36, rfl⟩).2.1 (by decide)
  · exact ((claim_C1_c_type_add T_LONG T_LONG ⟨37, rfl⟩).2.2.1 (by decide) (by decide)
      (by decide)).1
  · exact (claim_C1_c_type_add T_INT T_INT ⟨36, rfl⟩).2.2.2 (by decide)

/-- Type bit of the `i`-th entry of `types` (`T_NONE` when out of range;
the C loops never index out of range). -/
def typeBitAt (types : List c_type_info) (i : Nat) : Nat :=
  (types.getD i default).type

/-- Entry of a two-dimensional legality table (`LANG_NONE` when out of
range; the C loops never index out of range). -/
def tableEntry (table : List (List Nat)) (row col : Nat) : Nat :=
  (table.getD row []).getD col LANG_NONE

/-- Function `c_type_check_legal` of `src/c_type.c`: scans `types` in
order and returns the `ok_langs` of the first entry whose bit is set in
`type` but which is not legal in the current language, or `LANG_ALL`. -/
def c_type_check_legal (lang : Lang) (type : Nat) (types : List c_type_info) : Nat :=
  match types.find? (fun ti =>
      type &&& ti.type != T_NONE && langBit lang &&& ti.ok_langs == LANG_NONE) with
  | some ti => ti.ok_langs
  | none => LANG_ALL

/-- The (row, col) index pairs with `col ≤ row`, in the row-major order
traversed by the nested loops of `c_type_check_combo`. -/
def comboPairs (n : Nat) : List (Nat × Nat) :=
  (List.range n).flatMap fun row => (List.range (row + 1)).map fun col => (row, col)

/-- Function `c_type_check_combo` of `src/c_type.c`: scans the lower
triangle of `table` in row-major order and returns the entry of the first
pair of set bits that is not legal in the current language, or
`LANG_ALL`. -/
def c_type_check_combo (lang : Lang) (type : Nat) (types : List c_type_info)
    (table : List (List Nat)) : Nat :=
  match (comboPairs types.length).find? (fun rc =>
      type &&& typeBitAt types rc.1 != T_NONE &&
      (type &&& typeBitAt types rc.2 != T_NONE &&
       langBit lang &&& tableEntry table rc.1 rc.2 == LANG_NONE)) with
  | some rc => tableEntry table rc.1 rc.2
  | none => LANG_ALL

/-- Function `c_type_check` of `src/c_type.c`: checks attributes, storage
classes, base types, qualifiers, storage-class combinations and base-type
combinations, in that order, returning the first non-`LANG_ALL` result. -/
def c_type_check (lang : Lang) (type : Nat) : Nat :=
  if c_type_check_legal lang type C_ATTRIBUTE_INFO != LANG_ALL then
    c_type_check_legal lang type C_ATTRIBUTE_INFO
  else if c_type_check_legal lang type C_STORAGE_INFO != LANG_ALL then
    c_type_check_legal lang type C_STORAGE_INFO
  else if c_type_check_legal lang type C_TYPE_INFO != LANG_ALL then
    c_type_check_legal lang type C_TYPE_INFO
  else if c_type_check_legal lang type C_QUALIFIER_INFO != LANG_ALL then
    c_type_check_legal lang type C_QUALIFIER_INFO
  else if c_type_check_combo lang type C_STORAGE_INFO OK_STORAGE_LANGS != LANG_ALL then
    c_type_check_combo lang type C_STORAGE_INFO OK_STORAGE_LANGS
  else if c_type_check_combo lang type C_TYPE_INFO OK_TYPE_LANGS != LANG_ALL then
    c_type_check_combo lang type C_TYPE_INFO OK_TYPE_LANGS
  else
    LANG_ALL

/-- The first individually-illegal bit's language set, as an `Option`
(the value `c_type_check_legal` reports, `none` when no violation). -/
def legal_violation (lang : Lang) (type : Nat) (types : List c_type_info) : Option Nat :=
  (types.find? (fun ti =>
      type &&& ti.type != T_NONE && langBit lang &&& ti.ok_langs == LANG_NONE)).map
    (fun ti => ti.ok_langs)

/-- The first illegal pair's language set, as an `Option` (the value
`c_type_check_combo` reports, `none` when no violation). -/
def combo_violation (lang : Lang) (type : Nat) (types : List c_type_info)
    (table : List (List Nat)) : Option Nat :=
  ((comboPairs types.length).find? (fun rc =>
      type &&& typeBitAt types rc.1 != T_NONE &&
      (type &&& typeBitAt types rc.2 != T_NONE &&
       langBit lang &&& tableEntry table rc.1 rc.2 == LANG_NONE))).map
    (fun rc => tableEntry table rc.1 rc.2)

/-- Following the spec's words: the first violation found, checking in the
fixed order attributes, storage class, base type, qualifiers,
storage-class combinations, base-type combinations. -/
def c_type_check_described (lang : Lang) (type : Nat) : Option Nat :=
  match legal_violation lang type C_ATTRIBUTE_INFO with
  | some v => some v
  | none =>
  match legal_violation lang type C_STORAGE_INFO with
  | some v => some v
  | none =>
  match legal_violation lang type C_TYPE_INFO with
  | some v => some v
  | none =>
  match legal_violation lang type C_QUALIFIER_INFO with
  | some v => some v
  | none =>
  match combo_violation lang type C_STORAGE_INFO OK_STORAGE_LANGS with
  | some v => some v
  | none => combo_violation lang type C_TYPE_INFO OK_TYPE_LANGS

theorem langBit_land_LANG_ALL (l : Lang) : langBit l &&& LANG_ALL ≠ LANG_NONE := by
  cases l <;> decide

theorem legal_eq_getD (lang : Lang) (type : Nat) (types : List c_type_info) :
    c_type_check_legal lang type types = (legal_violation lang type types).getD LANG_ALL := by
  unfold c_type_check_legal legal_violation
  cases h : types.find? (fun ti =>
      type &&& ti.type != T_NONE && langBit lang &&& ti.ok_langs == LANG_NONE) <;> rfl

theorem combo_eq_getD (lang : Lang) (type : Nat) (types : List c_type_info)
    (table : List (List Nat)) :
    c_type_check_combo lang type types table =
      (combo_violation lang type types table).getD LANG_ALL := by
  unfold c_type_check_combo combo_violation
  cases h : (comboPairs types.length).find? (fun rc =>
      type &&& typeBitAt types rc.1 != T_NONE &&
      (type &&& typeBitAt types rc.2 != T_NONE &&
       langBit lang &&& tableEntry table rc.1 rc.2 == LANG_NONE)) <;> rfl

theorem legal_violation_ne_all (lang : Lang) (type : Nat) (types : List c_type_info)
    (v : Nat) (h : legal_violation lang type types = some v) : v ≠ LANG_ALL := by
  unfold legal_violation at h
  cases hf : types.find? (fun ti =>
      type &&& ti.type != T_NONE && langBit lang &&& ti.ok_langs == LANG_NONE) with
  | none => rw [hf] at h; exact Option.noConfusion h
  | some ti =>
    rw [hf] at h
    replace h : ti.ok_langs = v := Option.some.inj h
    have hp := List.find?_some hf
    simp only [Bool.and_eq_true, bne_iff_ne, ne_eq, beq_iff_eq] at hp
    intro hv
    rw [h, hv] at hp
    exact langBit_land_LANG_ALL lang hp.2

theorem combo_violation_ne_all (lang : Lang) (type : Nat) (types : List c_type_info)
    (table : List (List Nat)) (v : Nat)
    (h : combo_violation lang type types table = some v) : v ≠ LANG_ALL := by
  unfold combo_violation at h
  cases hf : (comboPairs types.length).find? (fun rc =>
      type &&& typeBitAt types rc.1 != T_NONE &&
      (type &&& typeBitAt types rc.2 != T_NONE &&
       langBit lang &&& tableEntry table rc.1 rc.2 == LANG_NONE)) with
  | none => rw [hf] at h; exact Option.noConfusion h
  | some rc =>
    rw [hf] at h
    replace h : tableEntry table rc.1 rc.2 = v := Option.some.inj h
    have hp := List.find?_some hf
    simp only [Bool.and_eq_true, bne_iff_ne, ne_eq, beq_iff_eq] at hp
    intro hv
    rw [h, hv] at hp
    exact langBit_land_LANG_ALL lang hp.2.2

theorem legal_eq_all_iff (lang : Lang) (type : Nat) (types : List c_type_info) :
    c_type_check_legal lang type types = LANG_ALL ↔
      ∀ ti ∈ types, type &&& ti.type ≠ T_NONE → langBit lang &&& ti.ok_langs ≠ LANG_NONE := by
  unfold c_type_check_legal
  cases h : types.find? (fun ti =>
      type &&& ti.type != T_NONE && langBit lang &&& ti.ok_langs == LANG_NONE) with
  | none =>
    refine iff_of_true rfl ?_
    intro ti hti hset
    have := List.find?_eq_none.mp h ti hti
    simp only [Bool.and_eq_true, bne_iff_ne, ne_eq, beq_iff_eq, not_and] at this
    exact this hset
  | some ti =>
    have hp := List.find?_some h
    have hmem := List.mem_of_find?_eq_some h
    simp only [Bool.and_eq_true, bne_iff_ne, ne_eq, beq_iff_eq] at hp
    constructor
    · intro heq
      exact absurd (heq ▸ hp.2) (langBit_land_LANG_ALL lang)
    · intro hall
      exact absurd hp.2 (hall ti hmem hp.1)

theorem mem_comboPairs {n : Nat} {rc : Nat × Nat} :
    rc ∈ comboPairs n ↔ rc.1 < n ∧ rc.2 ≤ rc.1 := by
  obtain ⟨r, c⟩ := rc
  simp only [comboPairs, List.mem_flatMap, List.mem_map, List.mem_range]
  constructor
  · rintro ⟨row, hrow, col, hcol, heq⟩
    obtain ⟨rfl, rfl⟩ := Prod.mk.injEq .. ▸ heq
    exact ⟨hrow, Nat.lt_succ_iff.mp hcol⟩
  · rintro ⟨hr, hc⟩
    exact ⟨r, hr, c, Nat.lt_succ_iff.mpr hc, rfl⟩

theorem combo_eq_all_iff (lang : Lang) (type : Nat) (types : List c_type_info)
    (table : List (List Nat)) :
    c_type_check_combo lang type types table = LANG_ALL ↔
      ∀ i, i < types.length → ∀ j, j < types.length →
        type &&& typeBitAt types i ≠ T_NONE → type &&& typeBitAt types j ≠ T_NONE →
        langBit lang &&& tableEntry table (max i j) (min i j) ≠ LANG_NONE := by
  unfold c_type_check_combo
  cases h : (comboPairs types.length).find? (fun rc =>
      type &&& typeBitAt types rc.1 != T_NONE &&
      (type &&& typeBitAt types rc.2 != T_NONE &&
       langBit lang &&& tableEntry table rc.1 rc.2 == LANG_NONE)) with
  | none =>
    refine iff_of_true rfl ?_
    intro i hi j hj hbi hbj
    rcases Nat.le_total i j with hle | hle
    · have hmem : (j, i) ∈ comboPairs types.length := mem_comboPairs.mpr ⟨hj, hle⟩
      have hnp := List.find?_eq_none.mp h _ hmem
      simp only [Bool.and_eq_true, bne_iff_ne, ne_eq, beq_iff_eq, not_and] at hnp
      rw [Nat.max_eq_right hle, Nat.min_eq_left hle]
      exact hnp hbj hbi
    · have hmem : (i, j) ∈ comboPairs types.length := mem_comboPairs.mpr ⟨hi, hle⟩
      have hnp := List.find?_eq_none.mp h _ hmem
      simp only [Bool.and_eq_true, bne_iff_ne, ne_eq, beq_iff_eq, not_and] at hnp
      rw [Nat.max_eq_left hle, Nat.min_eq_right hle]
      exact hnp hbi hbj
  | some rc =>
    have hp := List.find?_some h
    have hmem := mem_comboPairs.mp (List.mem_of_find?_eq_some h)
    simp only [Bool.and_eq_true, bne_iff_ne, ne_eq, beq_iff_eq] at hp
    constructor
    · intro heq
      exact absurd (heq ▸ hp.2.2) (langBit_land_LANG_ALL lang)
    · intro hall
      have := hall rc.1 hmem.1 rc.2 (Nat.lt_of_le_of_lt hmem.2 hmem.1) hp.1 hp.2.1
      rw [Nat.max_eq_left hmem.2, Nat.min_eq_right hmem.2] at this
      exact absurd hp.2.2 this

theorem find?_congr_of_mem {α : Type} (xs : List α) (p q : α → Bool)
    (h : ∀ x ∈ xs, p x = q x) : xs.find? p = xs.find? q := by
  induction xs with
  | nil => rfl
  | cons a as ih =>
    rw [List.find?_cons, List.find?_cons, h a (List.mem_cons_self a as)]
    cases q a with
    | true => rfl
    | false => exact ih (fun x hx => h x (List.mem_cons_of_mem a hx))

theorem combo_congr (lang : Lang) (type : Nat) (types : List c_type_info)
    (table table' : List (List Nat))
    (h : ∀ r, r < types.length → ∀ c, c ≤ r → tableEntry table r c = tableEntry table' r c) :
    c_type_check_combo lang type types table = c_type_check_combo lang type types table' := by
  unfold c_type_check_combo
  have hpq : (comboPairs types.length).find? (fun rc =>
      type &&& typeBitAt types rc.1 != T_NONE &&
      (type &&& typeBitAt types rc.2 != T_NONE &&
       langBit lang &&& tableEntry table rc.1 rc.2 == LANG_NONE)) =
    (comboPairs types.length).find? (fun rc =>
      type &&& typeBitAt types rc.1 != T_NONE &&
      (type &&& typeBitAt types rc.2 != T_NONE &&
       langBit lang &&& tableEntry table' rc.1 rc.2 == LANG_NONE)) := by
    apply find?_congr_of_mem
    intro rc hrc
    have hm := mem_comboPairs.mp hrc
    rw [h rc.1 hm.1 rc.2 hm.2]
  rw [hpq]
  cases hf : (comboPairs types.length).find? (fun rc =>
      type &&& typeBitAt types rc.1 != T_NONE &&
      (type &&& typeBitAt types rc.2 != T_NONE &&
       langBit lang &&& tableEntry table' rc.1 rc.2 == LANG_NONE)) with
  | none => rfl
  | some rc =>
    have hm := mem_comboPairs.mp (List.mem_of_find?_eq_some hf)
    exact h rc.1 hm.1 rc.2 hm.2

/--
Claim C2: for every type value, `c_type_check` returns `LANG_ALL` ("legal
everywhere") if and only if every individually-set bit is legal in the
active dialect and every pair of set storage-class bits and every pair of
set base-type bits (diagonal included) is legal in the active dialect;
otherwise it returns the language set of the first violation found,
checking in the fixed order attributes, storage class, base type,
qualifiers, storage-class combinations, base-type combinations
(`c_type_check_described` is that first-violation description).
-/
theorem claim_C2_c_type_check (lang : Lang) (type : Nat) :
    (c_type_check lang type = LANG_ALL ↔
      ((∀ ti ∈ C_ATTRIBUTE_INFO ++ C_STORAGE_INFO ++ C_TYPE_INFO ++ C_QUALIFIER_INFO,
          type &&& ti.type ≠ T_NONE → langBit lang &&& ti.ok_langs ≠ LANG_NONE) ∧
       (∀ i, i < C_STORAGE_INFO.length → ∀ j, j < C_STORAGE_INFO.length →
          type &&& typeBitAt C_STORAGE_INFO i ≠ T_NONE →
          type &&& typeBitAt C_STORAGE_INFO j ≠ T_NONE →
          langBit lang &&& tableEntry OK_STORAGE_LANGS (max i j) (min i j) ≠ LANG_NONE) ∧
       (∀ i, i < C_TYPE_INFO.length → ∀ j, j < C_TYPE_INFO.length →
          type &&& typeBitAt C_TYPE_INFO i ≠ T_NONE →
          type &&& typeBitAt C_TYPE_INFO j ≠ T_NONE →
          langBit lang &&& tableEntry OK_TYPE_LANGS (max i j) (min i j) ≠ LANG_NONE))) ∧
    c_type_check lang type = (c_type_check_described lang type).getD LANG_ALL := by
  constructor
  · have hcheck : c_type_check lang type = LANG_ALL ↔
        (c_type_check_legal lang type C_ATTRIBUTE_INFO = LANG_ALL ∧
         c_type_check_legal lang type C_STORAGE_INFO = LANG_ALL ∧
         c_type_check_legal lang type C_TYPE_INFO = LANG_ALL ∧
         c_type_check_legal lang type C_QUALIFIER_INFO = LANG_ALL ∧
         c_type_check_combo lang type C_STORAGE_INFO OK_STORAGE_LANGS = LANG_ALL ∧
         c_type_check_combo lang type C_TYPE_INFO OK_TYPE_LANGS = LANG_ALL) := by
      unfold c_type_check
      split_ifs with h1 h2 h3 h4 h5 h6 <;> simp_all [bne_iff_ne]
    rw [hcheck, legal_eq_all_iff, legal_eq_all_iff, legal_eq_all_iff, legal_eq_all_iff,
      combo_eq_all_iff, combo_eq_all_iff]
    constructor
    · rintro ⟨ha, hs, ht, hq, hcs, hct⟩
      refine ⟨?_, hcs, hct⟩
      intro ti hti
      simp only [List.mem_append] at hti
      rcases hti with (((h | h) | h) | h)
      · exact ha ti h
      · exact hs ti h
      · exact ht ti h
      · exact hq ti h
    · rintro ⟨hall, hcs, hct⟩
      refine ⟨?_, ?_, ?_, ?_, hcs, hct⟩ <;>
        intro ti hti <;> exact hall ti (by simp [List.mem_append, hti])
  · rw [c_type_check_described]
    unfold c_type_check
    rw [legal_eq_getD lang type C_ATTRIBUTE_INFO, legal_eq_getD lang type C_STORAGE_INFO,
      legal_eq_getD lang type C_TYPE_INFO, legal_eq_getD lang type C_QUALIFIER_INFO,
      combo_eq_getD lang type C_STORAGE_INFO OK_STORAGE_LANGS,
      combo_eq_getD lang type C_TYPE_INFO OK_TYPE_LANGS]
    cases h1 : legal_violation lang type C_ATTRIBUTE_INFO with
    | some v => simp [legal_violation_ne_all lang type C_ATTRIBUTE_INFO v h1]
    | none =>
    cases h2 : legal_violation lang type C_STORAGE_INFO with
    | some v => simp [legal_violation_ne_all lang type C_STORAGE_INFO v h2]
    | none =>
    cases h3 : legal_violation lang type C_TYPE_INFO with
    | some v => simp [legal_violation_ne_all lang type C_TYPE_INFO v h3]
    | none =>
    cases h4 : legal_violation lang type C_QUALIFIER_INFO with
    | some v => simp [legal_violation_ne_all lang type C_QUALIFIER_INFO v h4]
    | none =>
    cases h5 : combo_violation lang type C_STORAGE_INFO OK_STORAGE_LANGS with
    | some v => simp [combo_violation_ne_all lang type C_STORAGE_INFO OK_STORAGE_LANGS v h5]
    | none =>
    cases h6 : combo_violation lang type C_TYPE_INFO OK_TYPE_LANGS with
    | some v => simp [combo_violation_ne_all lang type C_TYPE_INFO OK_TYPE_LANGS v h6]
    | none => simp

/--
Claim C3: in pairwise combination checking, only lower-triangle entries
(column index at most the row index) of the legality tables are ever
consulted — two tables agreeing on the lower triangle give identical
results — and for any two set bits at positions `i` and `j`, the legality
of their combination is decided solely by the entry at row `max i j`,
column `min i j`.
-/
theorem claim_C3_lower_triangle (lang : Lang) (type : Nat) (types : List c_type_info) :
    (∀ table table',
      (∀ r, r < types.length → ∀ c, c ≤ r → tableEntry table r c = tableEntry table' r c) →
      c_type_check_combo lang type types table = c_type_check_combo lang type types table') ∧
    (∀ table, c_type_check_combo lang type types table = LANG_ALL ↔
      ∀ i, i < types.length → ∀ j, j < types.length →
        type &&& typeBitAt types i ≠ T_NONE → type &&& typeBitAt types j ≠ T_NONE →
        langBit lang &&& tableEntry table (max i j) (min i j) ≠ LANG_NONE) :=
  ⟨fun table table' h => combo_congr lang type types table table' h,
   fun table => combo_eq_all_iff lang type types table⟩

/--
Claim C2, witness: `int` alone is legal in every dialect, so
`c_type_check` returns `LANG_ALL` on it in C11; `register int` in C89
likewise; and the description agrees with `c_type_check` concretely.
-/
theorem claim_C2_witness :
    c_type_check Lang.c_11 T_INT = LANG_ALL ∧
    c_type_check Lang.c_89 (T_REGISTER ||| T_INT) = LANG_ALL :=
  ⟨(claim_C2_c_type_check Lang.c_11 T_INT).1.mpr ⟨by decide, by decide, by decide⟩,
   (claim_C2_c_type_check Lang.c_89 (T_REGISTER ||| T_INT)).1.mpr
     ⟨by decide, by decide, by decide⟩⟩

/--
Claim C3, witness: a table with entries only strictly above the diagonal
is indistinguishable from the empty table, and `extern inline` is a legal
storage-class combination in C99.
-/
theorem claim_C3_witness :
    c_type_check_combo Lang.c_99 (T_EXTERN ||| T_INLINE) C_ATTRIBUTE_INFO [] =
      c_type_check_combo Lang.c_99 (T_EXTERN ||| T_INLINE) C_ATTRIBUTE_INFO [[XX, OK]] ∧
    c_type_check_combo Lang.c_99 (T_EXTERN ||| T_INLINE) C_STORAGE_INFO OK_STORAGE_LANGS =
      LANG_ALL :=
  ⟨(claim_C3_lower_triangle Lang.c_99 (T_EXTERN ||| T_INLINE) C_ATTRIBUTE_INFO).1
      [] [[XX, OK]] (by decide),
   ((claim_C3_lower_triangle Lang.c_99 (T_EXTERN ||| T_INLINE) C_STORAGE_INFO).2
      OK_STORAGE_LANGS).mpr (by decide)⟩


/--
Modelled from the spec: `options.h` is not under `src/`.  The ambient
translation mode `c_mode` is either English-to-gibberish or
gibberish-to-English, supplied by the excluded options/REPL layer.
-/
inductive CMode where
  | english_to_gibberish
  | gibberish_to_english
  deriving DecidableEq

/-- Function `c_type_literal` of `src/c_type.c`: returns the English
spelling when `(c_mode == MODE_ENGLISH_TO_GIBBERISH) == is_error` and an
English spelling exists, otherwise the gibberish literal. -/
def c_type_literal (mode : CMode) (t : c_type_info) (is_error : Bool) : String :=
  if ((mode == CMode.english_to_gibberish) == is_error) && t.english.isSome then
    t.english.getD t.literal
  else
    t.literal

/-- Function `c_type_name_1` of `src/c_type.c`: the name of an individual
(single-bit) type, searching the attribute, qualifier, storage and
base-type tables in that order; `_Noreturn` is special-cased to
`noreturn` when translating to C++.  The C function raises an internal
error for a value in no table; embedded as `none`. -/
def c_type_name_1 (mode : CMode) (lang : Lang) (type : Nat) (is_error : Bool) :
    Option String :=
  match C_ATTRIBUTE_INFO.find? (fun ti => type == ti.type) with
  | some ti =>
    some (
      if c_type_literal mode ti is_error == "_Noreturn" &&
          decide (LANG_CPP_MIN ≤ langBit lang) then
        "noreturn"
      else
        c_type_literal mode ti is_error)
  | none =>
  match C_QUALIFIER_INFO.find? (fun ti => type == ti.type) with
  | some ti => some (c_type_literal mode ti is_error)
  | none =>
  match C_STORAGE_INFO.find? (fun ti => type == ti.type) with
  | some ti => some (c_type_literal mode ti is_error)
  | none =>
  match C_TYPE_INFO.find? (fun ti => type == ti.type) with
  | some ti => some (c_type_literal mode ti is_error)
  | none => none

/-- Array `C_ATTRIBUTE` of `c_type_name_impl`. -/
def C_ATTRIBUTE : List Nat :=
  [T_CARRIES_DEPENDENCY, T_DEPRECATED, T_MAYBE_UNUSED, T_NODISCARD, T_NORETURN]

/-- Array `C_STORAGE_CLASS` of `c_type_name_impl` (ordered so that names
read like "static inline constexpr"). -/
def C_STORAGE_CLASS : List Nat :=
  [T_AUTO_C, T_BLOCK, T_EXTERN, T_FRIEND, T_REGISTER, T_MUTABLE, T_STATIC,
   T_THREAD_LOCAL, T_TYPEDEF, T_PURE_VIRTUAL, T_VIRTUAL, T_INLINE,
   T_OVERRIDE, T_FINAL, T_NOEXCEPT, T_THROW, T_CONSTEXPR]

/-- Array `C_QUALIFIER` of `c_type_name_impl` (atomic last, so that
"const _Atomic" reads correctly). -/
def C_QUALIFIER : List Nat :=
  [T_CONST, T_RESTRICT, T_VOLATILE, T_REFERENCE, T_RVALUE_REFERENCE, T_ATOMIC]

/-- Array `C_TYPE` of `c_type_name_impl` (signed/unsigned first, then
long/short, then the specific base spellings; `T_TYPEDEF_TYPE` does not
appear in it). -/
def C_TYPE : List Nat :=
  [T_SIGNED, T_UNSIGNED, T_LONG, T_SHORT, T_VOID, T_AUTO_CPP_11, T_BOOL,
   T_CHAR, T_CHAR16_T, T_CHAR32_T, T_WCHAR_T, T_LONG_LONG, T_INT, T_COMPLEX,
   T_IMAGINARY, T_FLOAT, T_DOUBLE, T_ENUM, T_STRUCT, T_UNION, T_CLASS]

/-- Function `c_type_name_cat` of `src/c_type.c`, embedded as the ordered
list of tokens it appends (the C code joins them into one buffer,
inserting the separator character between consecutive tokens). -/
def c_type_name_cat (mode : CMode) (lang : Lang) (type : Nat) (types : List Nat)
    (is_error : Bool) : List String :=
  (types.filter (fun t => type &&& t != T_NONE)).filterMap
    (fun t => c_type_name_1 mode lang t is_error)

/-- Clearing the bits of `mask` from `x` (the C `x &= ~mask`). -/
def clearBits (x mask : Nat) : Nat := x ^^^ (x &&& mask)

/-- The two base-type elision steps of `c_type_name_impl`: explicit
"signed" is dropped unless the char bit is set; explicit "int" is dropped
when at least one of unsigned/short/long/long-long is set. -/
def elide_base (type : Nat) : Nat :=
  let t1 := if type &&& T_CHAR == T_NONE then clearBits type T_SIGNED else type
  if t1 &&& (T_UNSIGNED ||| T_SHORT ||| T_LONG ||| T_LONG_LONG) != T_NONE then
    clearBits t1 T_INT
  else
    t1

/-- Function `c_type_name_impl` of `src/c_type.c`, embedded as the ordered
list of emitted tokens: the attribute group (surrounded by `[[` `]]`
tokens when emitting C++ English-to-gibberish output outside an error
message), then storage classes, then qualifiers, then the elided
base-type group. -/
def c_type_name_impl (mode : CMode) (lang : Lang) (type : Nat) (is_error : Bool) :
    List String :=
  (if type &&& T_MASK_ATTRIBUTE != T_NONE then
    (if decide (LANG_CPP_MIN ≤ langBit lang) &&
        (mode == CMode.english_to_gibberish) && !is_error then
      ["[["] ++ c_type_name_cat mode lang type C_ATTRIBUTE is_error ++ ["]]"]
    else
      c_type_name_cat mode lang type C_ATTRIBUTE is_error)
  else [])
  ++ c_type_name_cat mode lang type C_STORAGE_CLASS is_error
  ++ c_type_name_cat mode lang type C_QUALIFIER is_error
  ++ c_type_name_cat mode lang (elide_base type) C_TYPE is_error

/-- Function `c_type_name` of `src/c_type.c`. -/
def c_type_name (mode : CMode) (lang : Lang) (type : Nat) : List String :=
  c_type_name_impl mode lang type false

/-- Function `c_type_name_error` of `src/c_type.c`. -/
def c_type_name_error (mode : CMode) (lang : Lang) (type : Nat) : List String :=
  c_type_name_impl mode lang type true

theorem land_two_pow_eq_zero_iff (x i : Nat) :
    x &&& 2 ^ i = 0 ↔ x.testBit i = false := by
  rw [← not_iff_not, ← ne_eq, land_two_pow_ne_zero_iff]
  simp

theorem testBit_clearBits (x mask i : Nat) :
    (clearBits x mask).testBit i = (x.testBit i && !(mask.testBit i)) := by
  simp only [clearBits, Nat.testBit_xor, Nat.testBit_and]
  cases hx : x.testBit i <;> cases hm : mask.testBit i <;> rfl

theorem lor_eq_zero_iff (a b : Nat) : a ||| b = 0 ↔ a = 0 ∧ b = 0 := by
  constructor
  · intro h
    constructor
    · refine Nat.eq_of_testBit_eq (fun i => ?_)
      have hj : (a ||| b).testBit i = false := by rw [h]; exact Nat.zero_testBit i
      simp only [Nat.testBit_or, Bool.or_eq_false_iff] at hj
      simp [hj.1, Nat.zero_testBit]
    · refine Nat.eq_of_testBit_eq (fun i => ?_)
      have hj : (a ||| b).testBit i = false := by rw [h]; exact Nat.zero_testBit i
      simp only [Nat.testBit_or, Bool.or_eq_false_iff] at hj
      simp [hj.2, Nat.zero_testBit]
  · rintro ⟨rfl, rfl⟩
    rfl

theorem land_lor_ne_zero (x a b : Nat) :
    x &&& (a ||| b) ≠ 0 ↔ (x &&& a ≠ 0 ∨ x &&& b ≠ 0) := by
  rw [Nat.and_or_distrib_left, Ne, lor_eq_zero_iff]
  tauto

theorem land_int_modifiers_ne (x : Nat) :
    x &&& (T_UNSIGNED ||| T_SHORT ||| T_LONG ||| T_LONG_LONG) ≠ 0 ↔
      (x.testBit 40 || x.testBit 35 || x.testBit 37 || x.testBit 38) = true := by
  rw [land_lor_ne_zero, land_lor_ne_zero, land_lor_ne_zero,
    T_UNSIGNED, T_SHORT, T_LONG, T_LONG_LONG,
    land_two_pow_ne_zero_iff, land_two_pow_ne_zero_iff,
    land_two_pow_ne_zero_iff, land_two_pow_ne_zero_iff]
  simp [or_assoc]

theorem clearBits_land_int_modifiers (type : Nat) :
    clearBits type T_SIGNED &&& (T_UNSIGNED ||| T_SHORT ||| T_LONG ||| T_LONG_LONG) ≠ 0 ↔
      (type.testBit 40 || type.testBit 35 || type.testBit 37 || type.testBit 38) = true := by
  rw [land_int_modifiers_ne]
  simp only [testBit_clearBits, T_SIGNED, Nat.testBit_two_pow]
  simp

theorem land_char_beq (type : Nat) :
    (type &&& T_CHAR == T_NONE) = !type.testBit 31 := by
  rw [T_CHAR, T_NONE, Nat.and_two_pow]
  cases htb : type.testBit 31 <;> rfl

theorem testBit_elide_base (type i : Nat) :
    (elide_base type).testBit i =
      if i = 39 then type.testBit 39 && type.testBit 31
      else if i = 36 then
        type.testBit 36 &&
          !(type.testBit 40 || type.testBit 35 || type.testBit 37 || type.testBit 38)
      else type.testBit i := by
  have hs : ∀ j : Nat, T_SIGNED.testBit j = decide (39 = j) := fun j => by
    rw [T_SIGNED, Nat.testBit_two_pow]
  have hti : ∀ j : Nat, T_INT.testBit j = decide (36 = j) := fun j => by
    rw [T_INT, Nat.testBit_two_pow]
  cases hc : type.testBit 31 <;>
    cases hmods : (type.testBit 40 || type.testBit 35 || type.testBit 37 || type.testBit 38)
  · -- char not set (signed elided), no int modifier
    have he : elide_base type = clearBits type T_SIGNED := by
      have hcl : (clearBits type T_SIGNED &&&
          (T_UNSIGNED ||| T_SHORT ||| T_LONG ||| T_LONG_LONG) != T_NONE) = false := by
        rw [bne_eq_false_iff_eq]
        cases hz : clearBits type T_SIGNED &&& (T_UNSIGNED ||| T_SHORT ||| T_LONG ||| T_LONG_LONG)
        · rfl
        · rw [(clearBits_land_int_modifiers type).mp (by rw [hz]; simp)] at hmods
          exact Bool.noConfusion hmods
      unfold elide_base
      rw [land_char_beq, hc]
      simp [hcl]
    rw [he]
    rcases Nat.decEq i 39 with h39 | h39
    · rcases Nat.decEq i 36 with h36 | h36
      · simp only [testBit_clearBits, hs]
        simp [h39, h36, Ne.symm h39]
      · subst h36
        simp only [testBit_clearBits, hs]
        simp [hmods]
    · subst h39
      simp only [testBit_clearBits, hs]
      simp [hc]
  · -- char not set (signed elided), int modifier present (int elided)
    have he : elide_base type = clearBits (clearBits type T_SIGNED) T_INT := by
      have hcl : (clearBits type T_SIGNED &&&
          (T_UNSIGNED ||| T_SHORT ||| T_LONG ||| T_LONG_LONG) != T_NONE) = true :=
        bne_iff_ne.mpr ((clearBits_land_int_modifiers type).mpr hmods)
      unfold elide_base
      rw [land_char_beq, hc]
      simp [hcl]
    rw [he]
    rcases Nat.decEq i 39 with h39 | h39
    · rcases Nat.decEq i 36 with h36 | h36
      · simp only [testBit_clearBits, hs, hti]
        simp [h39, h36, Ne.symm h39, Ne.symm h36]
      · subst h36
        simp only [testBit_clearBits, hs, hti]
        simp [hmods]
    · subst h39
      simp only [testBit_clearBits, hs, hti]
      simp [hc]
  · -- char set (signed kept), no int modifier
    have he : elide_base type = type := by
      have hcl : (type &&&
          (T_UNSIGNED ||| T_SHORT ||| T_LONG ||| T_LONG_LONG) != T_NONE) = false := by
        rw [bne_eq_false_iff_eq]
        cases hz : type &&& (T_UNSIGNED ||| T_SHORT ||| T_LONG ||| T_LONG_LONG)
        · rfl
        · rw [(land_int_modifiers_ne type).mp (by rw [hz]; simp)] at hmods
          exact Bool.noConfusion hmods
      unfold elide_base
      rw [land_char_beq, hc]
      simp [hcl]
    rw [he]
    rcases Nat.decEq i 39 with h39 | h39
    · rcases Nat.decEq i 36 with h36 | h36
      · simp [h39, h36]
      · subst h36
        simp [hmods]
    · subst h39
      simp [hc]
  · -- char set (signed kept), int modifier present (int elided)
    have he : elide_base type = clearBits type T_INT := by
      have hcl : (type &&&
          (T_UNSIGNED ||| T_SHORT ||| T_LONG ||| T_LONG_LONG) != T_NONE) = true :=
        bne_iff_ne.mpr ((land_int_modifiers_ne type).mpr hmods)
      unfold elide_base
      rw [land_char_beq, hc]
      simp [hcl]
    rw [he]
    rcases Nat.decEq i 39 with h39 | h39
    · rcases Nat.decEq i 36 with h36 | h36
      · simp only [testBit_clearBits, hti]
        simp [h39, h36, Ne.symm h36]
      · subst h36
        simp only [testBit_clearBits, hti]
        simp [hmods]
    · subst h39
      simp only [testBit_clearBits, hti]
      simp [hc]

theorem land_int_modifiers_ne2 (x : Nat) :
    x &&& (2 ^ 40 ||| 2 ^ 35 ||| 2 ^ 37 ||| 2 ^ 38) ≠ 0 ↔
      (x.testBit 40 || x.testBit 35 || x.testBit 37 || x.testBit 38) = true :=
  land_int_modifiers_ne x

theorem elide_base_rendered_iff (type b : Nat) (hb : b ∈ C_TYPE) :
    elide_base type &&& b ≠ T_NONE ↔
      (type &&& b ≠ T_NONE ∧
       ¬(b = T_SIGNED ∧ type &&& T_CHAR = T_NONE) ∧
       ¬(b = T_INT ∧ type &&& (T_UNSIGNED ||| T_SHORT ||| T_LONG ||| T_LONG_LONG) ≠ T_NONE)) := by
  fin_cases hb <;>
    (simp only [T_NONE, T_SIGNED, T_UNSIGNED, T_LONG, T_SHORT, T_VOID, T_AUTO_CPP_11,
      T_BOOL, T_CHAR, T_CHAR16_T, T_CHAR32_T, T_WCHAR_T, T_LONG_LONG, T_INT, T_COMPLEX,
      T_IMAGINARY, T_FLOAT, T_DOUBLE, T_ENUM, T_STRUCT, T_UNION, T_CLASS]
     rw [land_two_pow_ne_zero_iff, land_two_pow_ne_zero_iff, testBit_elide_base]
     simp [land_two_pow_eq_zero_iff, land_int_modifiers_ne2])
  · -- remaining goal of the signed case: relate the char-bit test
    exact fun _ => (land_two_pow_ne_zero_iff type 31).symm
  · -- remaining goal of the int case: relate the modifier-mask test
    intro _
    have hne := land_int_modifiers_ne type
    constructor
    · rintro ⟨⟨⟨h40, h35⟩, h37⟩, h38⟩
      by_contra hz
      have := hne.mp hz
      simp [h40, h35, h37, h38] at this
    · intro hz
      have hor : (type.testBit 40 || type.testBit 35 || type.testBit 37 ||
          type.testBit 38) = false := by
        cases h : (type.testBit 40 || type.testBit 35 || type.testBit 37 || type.testBit 38)
        · rfl
        · exact absurd hz (hne.mpr h)
      simp only [Bool.or_eq_false_iff] at hor
      exact ⟨⟨⟨hor.1.1.1, hor.1.1.2⟩, hor.1.2⟩, hor.2⟩

/--
Claim C4, counterexample.  The claim states that, beyond the two elision
rules (signed-unless-char, int-with-modifier), every other set base-type
bit is rendered.  But `T_TYPEDEF_TYPE` is a base-type bit (it has a row in
`C_TYPE_INFO`), is subject to neither elision rule, and is nevertheless
never rendered: it does not occur in the renderer's `C_TYPE` array, so
`long` with the typedef-type bit set renders exactly like plain `long`.
-/
theorem claim_C4_counterexample :
    T_TYPEDEF_TYPE ∈ C_TYPE_INFO.map (fun ti => ti.type) ∧
    (T_LONG ||| T_TYPEDEF_TYPE) &&& T_TYPEDEF_TYPE ≠ T_NONE ∧
    T_TYPEDEF_TYPE ≠ T_SIGNED ∧
    T_TYPEDEF_TYPE ≠ T_INT ∧
    T_TYPEDEF_TYPE ∉ C_TYPE.filter
      (fun t => elide_base (T_LONG ||| T_TYPEDEF_TYPE) &&& t != T_NONE) ∧
    c_type_name_impl CMode.gibberish_to_english Lang.c_89 (T_LONG ||| T_TYPEDEF_TYPE) false =
      ["long"] ∧
    c_type_name_impl CMode.gibberish_to_english Lang.c_89 T_LONG false = ["long"] := by
  have p1 : T_TYPEDEF_TYPE ∈ C_TYPE_INFO.map (fun ti => ti.type) := by decide
  have p2 : (T_LONG ||| T_TYPEDEF_TYPE) &&& T_TYPEDEF_TYPE ≠ T_NONE := by decide
  have p3 : T_TYPEDEF_TYPE ≠ T_SIGNED := by decide
  have p4 : T_TYPEDEF_TYPE ≠ T_INT := by decide
  have p5 : T_TYPEDEF_TYPE ∉ C_TYPE.filter
      (fun t => elide_base (T_LONG ||| T_TYPEDEF_TYPE) &&& t != T_NONE) := by decide
  exact ⟨p1, p2, p3, p4, p5, rfl, rfl⟩

/--
Claim C4 (amended): before rendering the base-type group, `c_type_name`
applies exactly two elision rules — the signed bit is omitted unless the
char bit is also set, and the int bit is omitted if any of the unsigned,
short, long, or long-long bits is set; every other base-type bit that is
set and occurs in the renderer's base-type array `C_TYPE` is rendered.
`C_TYPE` contains every `C_TYPE_INFO` bit except `T_TYPEDEF_TYPE`, which
is never rendered (it has no printable representation).
-/
theorem claim_C4_base_elision (type b : Nat) :
    (b ∈ C_TYPE.filter (fun t => elide_base type &&& t != T_NONE) ↔
      (b ∈ C_TYPE ∧ type &&& b ≠ T_NONE ∧
       ¬(b = T_SIGNED ∧ type &&& T_CHAR = T_NONE) ∧
       ¬(b = T_INT ∧ type &&& (T_UNSIGNED ||| T_SHORT ||| T_LONG ||| T_LONG_LONG) ≠ T_NONE))) ∧
    (∀ ti ∈ C_TYPE_INFO, ti.type ≠ T_TYPEDEF_TYPE → ti.type ∈ C_TYPE) ∧
    T_TYPEDEF_TYPE ∉ C_TYPE := by
  refine ⟨?_, by decide, by decide⟩
  constructor
  · intro hmem
    rw [List.mem_filter] at hmem
    obtain ⟨hb, hp⟩ := hmem
    have hne : elide_base type &&& b ≠ T_NONE := by
      simpa [bne_iff_ne] using hp
    exact ⟨hb, (elide_base_rendered_iff type b hb).mp hne⟩
  · rintro ⟨hb, hconds⟩
    rw [List.mem_filter]
    refine ⟨hb, ?_⟩
    simpa [bne_iff_ne] using (elide_base_rendered_iff type b hb).mpr hconds

/--
Claim C4, witness: `unsigned int` elides the int bit, so `T_INT` is not
rendered for `T_UNSIGNED ||| T_INT`.
-/
theorem claim_C4_witness :
    T_INT ∉ C_TYPE.filter (fun t => elide_base (T_UNSIGNED ||| T_INT) &&& t != T_NONE) := by
  intro hmem
  have h := (claim_C4_base_elision (T_UNSIGNED ||| T_INT) T_INT).1.mp hmem
  exact h.2.2.2 ⟨rfl, by decide⟩

/--
Claim C5, counterexample.  The claim states that the English spelling is
picked only in English-to-gibberish mode, and that for an error message
the gibberish spelling is always preferred for the primary.  But in
English-to-gibberish mode an error rendering of `T_NODISCARD` yields its
English spelling, not the gibberish `nodiscard`; and in
gibberish-to-English mode a normal (non-error) rendering also yields the
English spelling.
-/
theorem claim_C5_counterexample :
    c_type_name_1 CMode.english_to_gibberish Lang.c_11 T_NODISCARD true =
      some "non-discardable" ∧
    c_type_name_1 CMode.gibberish_to_english Lang.c_11 T_NODISCARD false =
      some "non-discardable" ∧
    (C_ATTRIBUTE_INFO.find? (fun ti => T_NODISCARD == ti.type)).map (fun ti => ti.literal) =
      some "nodiscard" ∧
    "non-discardable" ≠ "nodiscard" := by
  refine ⟨rfl, rfl, rfl, by decide⟩

/--
Claim C5 (amended): a single-bit type with both spellings is rendered
with its English spelling exactly when (mode = English-to-gibberish)
coincides with rendering-for-an-error; so a normal rendering uses English
exactly in gibberish-to-English mode, and an error rendering uses English
exactly in English-to-gibberish mode.  The `_Noreturn` to `noreturn`
substitution applies whenever the chosen spelling is the gibberish
`_Noreturn` and the active dialect is a C++ dialect — error message or
not.
-/
theorem claim_C5_literal_choice :
    (∀ (mode : CMode) (is_error : Bool) (ti : c_type_info) (e : String),
      ti.english = some e → e ≠ ti.literal →
      (c_type_literal mode ti is_error = e ↔
        ((mode = CMode.english_to_gibberish) ↔ is_error = true))) ∧
    (∀ (mode : CMode) (is_error : Bool) (ti : c_type_info),
      ti.english = none → c_type_literal mode ti is_error = ti.literal) ∧
    (∀ (mode : CMode) (lang : Lang) (is_error : Bool),
      c_type_name_1 mode lang T_NORETURN is_error =
        some (if (mode == CMode.english_to_gibberish) == is_error then "non-returning"
              else if LANG_CPP_MIN ≤ langBit lang then "noreturn" else "_Noreturn")) := by
  refine ⟨?_, ?_, ?_⟩
  · intro mode is_error ti e he hne
    cases mode <;> cases is_error <;> simp [c_type_literal, he, hne, Ne.symm hne]
  · intro mode is_error ti he
    cases mode <;> cases is_error <;> simp [c_type_literal, he]
  · intro mode lang is_error
    have hfind : C_ATTRIBUTE_INFO.find? (fun ti => T_NORETURN == ti.type) =
        some ⟨T_NORETURN, "_Noreturn", some "non-returning", LANG_C_11 ||| LANG_MIN .cpp_11⟩ :=
      rfl
    have hsne : (("non-returning" : String) == "_Noreturn") = false := by decide
    unfold c_type_name_1
    rw [hfind]
    by_cases hcpp : LANG_CPP_MIN ≤ langBit lang <;>
      cases mode <;> cases is_error <;> simp [c_type_literal, hcpp, hsne]

/--
Claim C5, witness: in English-to-gibberish mode the error rendering of
`nodiscard` uses the English spelling, and the normal rendering of
`_Noreturn` in C++11 is `noreturn`.
-/
theorem claim_C5_witness :
    c_type_literal CMode.english_to_gibberish
      ⟨T_NODISCARD, "nodiscard", some "non-discardable", P1⟩ true = "non-discardable" ∧
    c_type_name_1 CMode.english_to_gibberish Lang.cpp_11 T_NORETURN false = some "noreturn" := by
  constructor
  · exact (claim_C5_literal_choice.1 CMode.english_to_gibberish true
      ⟨T_NODISCARD, "nodiscard", some "non-discardable", P1⟩ "non-discardable" rfl
      (by decide)).mpr (by simp)
  · rw [claim_C5_literal_choice.2.2 CMode.english_to_gibberish Lang.cpp_11 false]
    rfl

/--
Modelled from the spec: `ast.h` is not under `src/` (only `src/ast.c`,
which implements it, is).  Per the spec, kinds are a closed enumeration of
disjoint single-bit values so that sets of kinds can be expressed as a
bitwise-or; `K_NONE` is the placeholder kind.  The kinds of `src/ast.c`
are the nine below plus `K_NONE`.
-/
def K_NONE : Nat := 0

def K_ARRAY : Nat := 2 ^ 0

def K_BLOCK : Nat := 2 ^ 1

def K_BUILTIN : Nat := 2 ^ 2

def K_ENUM_CLASS_STRUCT_UNION : Nat := 2 ^ 3

def K_FUNCTION : Nat := 2 ^ 4

def K_NAME : Nat := 2 ^ 5

def K_POINTER : Nat := 2 ^ 6

def K_PTR_TO_MEMBER : Nat := 2 ^ 7

def K_REFERENCE : Nat := 2 ^ 8

/-- Function `c_kind_name` of `src/ast.c`: the human-readable name of a
kind, dialect-sensitive only for the enum/class/struct/union kind.  The C
function raises `INTERNAL_ERR` for any other value; embedded as `none`. -/
def c_kind_name (lang : Lang) (kind : Nat) : Option String :=
  if kind = K_NONE then some "none"
  else if kind = K_ARRAY then some "array"
  else if kind = K_BLOCK then some "block"
  else if kind = K_BUILTIN then some "built-in type"
  else if kind = K_FUNCTION then some "function"
  else if kind = K_NAME then some "name"
  else if kind = K_POINTER then some "pointer"
  else if kind = K_PTR_TO_MEMBER then some "pointer-to-member"
  else if kind = K_REFERENCE then some "reference"
  else if kind = K_ENUM_CLASS_STRUCT_UNION then
    some (if LANG_CPP_MIN ≤ langBit lang then "enum, class, struct, or union"
          else if LANG_C_89 ≤ langBit lang then "enum, struct, or union"
          else "struct or union")
  else none

/--
Nodes of the AST of `src/ast.c`.  Modelled from the spec for the parts
`ast.h` would provide: every node carries an optional owned name and, per
kind, the payload of the corresponding `as` union member — array size
(`none` models `C_ARRAY_NO_SIZE`) and pointee, built-in/ecsu type,
function/block argument list and return-type node, pointer-to-member
qualifier, class name and pointee, pointer/reference qualifier and
pointee.  Nullable child pointers are `Option CAst`.
-/
inductive CAst where
  | knone (name : Option String)
  | array (name : Option String) (size : Option Int) (of : Option CAst)
  | builtin (name : Option String) (type : Nat)
  | ecsu (name : Option String) (type : Nat)
  | block (name : Option String) (type : Nat) (args : List CAst) (ret : Option CAst)
  | func (name : Option String) (type : Nat) (args : List CAst) (ret : Option CAst)
  | ptrMember (name : Option String) (qualifier : Nat) (class_name : String)
      (of : Option CAst)
  | nameOnly (name : Option String)
  | pointer (name : Option String) (qualifier : Nat) (to_ast : Option CAst)
  | reference (name : Option String) (qualifier : Nat) (to_ast : Option CAst)

/-- Function `c_ast_new` of `src/ast.c` increments the live-node counter
`c_ast_count` by one; this is the counter effect of one allocation. -/
def c_ast_new_count (c_ast_count : Nat) : Nat := c_ast_count + 1

mutual

/-- Function `c_ast_free` of `src/ast.c`, embedded as the number of times
it decrements the live-node counter (one `--c_ast_count` per non-null node
visited).  A null node is a no-op.  The recursion follows the `switch`
exactly: array pointee (when non-null), block/function argument list
(the return-type node is NOT visited), pointer-to-member pointee,
pointer/reference pointee. -/
def c_ast_free_dec : Option CAst → Nat
  | none => 0
  | some ast => c_ast_free_node ast

/-- Counter decrements for one non-null node and its freed children. -/
def c_ast_free_node (ast : CAst) : Nat :=
  1 + (match ast with
  | .knone _ => 0
  | .array _ _ of => c_ast_free_dec of
  | .builtin _ _ => 0
  | .ecsu _ _ => 0
  | .block _ _ args _ => c_ast_free_args args
  | .func _ _ args _ => c_ast_free_args args
  | .ptrMember _ _ _ of => c_ast_free_dec of
  | .nameOnly _ => 0
  | .pointer _ _ to_ast => c_ast_free_dec to_ast
  | .reference _ _ to_ast => c_ast_free_dec to_ast)

/-- The argument-list loop of `c_ast_free` for `K_BLOCK`/`K_FUNCTION`. -/
def c_ast_free_args : List CAst → Nat
  | [] => 0
  | a :: as => c_ast_free_node a + c_ast_free_args as

end

mutual

/-- The number of nodes of a tree counted through the ownership edges the
claim names: array pointee, function/block parameter list AND return
type, pointer/reference pointee, pointer-to-member pointee. -/
def c_ast_owned_nodes : Option CAst → Nat
  | none => 0
  | some ast => c_ast_owned_node ast

/-- Owned-node count of one node and everything it owns. -/
def c_ast_owned_node (ast : CAst) : Nat :=
  1 + (match ast with
  | .knone _ => 0
  | .array _ _ of => c_ast_owned_nodes of
  | .builtin _ _ => 0
  | .ecsu _ _ => 0
  | .block _ _ args ret => c_ast_owned_args args + c_ast_owned_nodes ret
  | .func _ _ args ret => c_ast_owned_args args + c_ast_owned_nodes ret
  | .ptrMember _ _ _ of => c_ast_owned_nodes of
  | .nameOnly _ => 0
  | .pointer _ _ to_ast => c_ast_owned_nodes to_ast
  | .reference _ _ to_ast => c_ast_owned_nodes to_ast)

/-- Owned-node count of a parameter list. -/
def c_ast_owned_args : List CAst → Nat
  | [] => 0
  | a :: as => c_ast_owned_node a + c_ast_owned_args as

end

mutual

/-- Function `c_ast_english` of `src/ast.c`, embedded as the ordered list
of emitted tokens.  `K_BLOCK` has no code of its own (a `TODO` comment)
and falls through to the `K_BUILTIN` case, which prints only
`c_type_name` of the node's type.  The C function asserts its argument is
non-null; a null child of a non-null node is rendered as no tokens. -/
def c_ast_english (mode : CMode) (lang : Lang) : CAst → List String
  | .knone _ => []
  | .array _ size of =>
    ["array"] ++ (match size with | some n => [toString n] | none => []) ++ ["of"] ++
      c_ast_english_opt mode lang of
  | .block _ type _ _ => c_type_name mode lang type
  | .builtin _ type => c_type_name mode lang type
  | .ecsu name type =>
    c_type_name mode lang type ++ (match name with | some n => [n] | none => [])
  | .func _ _ args ret =>
    ["function", "("] ++ c_ast_english_args mode lang args ++ [")", "returning"] ++
      c_ast_english_opt mode lang ret
  | .ptrMember _ qualifier class_name of =>
    (if qualifier ≠ T_NONE then c_type_name mode lang qualifier else []) ++
      ["pointer", "to", "member", "of", "class", class_name] ++
      c_ast_english_opt mode lang of
  | .nameOnly name => (match name with | some n => [n] | none => [])
  | .pointer _ qualifier to_ast =>
    (if qualifier ≠ T_NONE then c_type_name mode lang qualifier else []) ++
      ["pointer", "to"] ++ c_ast_english_opt mode lang to_ast
  | .reference _ qualifier to_ast =>
    (if qualifier ≠ T_NONE then c_type_name mode lang qualifier else []) ++
      ["reference", "to"] ++ c_ast_english_opt mode lang to_ast

/-- English rendering of a nullable child. -/
def c_ast_english_opt (mode : CMode) (lang : Lang) : Option CAst → List String
  | none => []
  | some a => c_ast_english mode lang a

/-- English rendering of an argument list. -/
def c_ast_english_args (mode : CMode) (lang : Lang) : List CAst → List String
  | [] => []
  | a :: as => c_ast_english mode lang a ++ c_ast_english_args mode lang as

end

/--
Claim C6: `c_kind_name` returns a fixed human-readable name for every
legal kind value, dialect-sensitive only for the enum/class/struct/union
kind ("enum, class, struct, or union" in C++ dialects, "enum, struct, or
union" from C89 on, "struct or union" in K&R C), and fails fatally
(embedded: returns `none`) exactly on impossible kind values.
-/
theorem claim_C6_c_kind_name (lang : Lang) :
    c_kind_name lang K_NONE = some "none" ∧
    c_kind_name lang K_ARRAY = some "array" ∧
    c_kind_name lang K_BLOCK = some "block" ∧
    c_kind_name lang K_BUILTIN = some "built-in type" ∧
    c_kind_name lang K_FUNCTION = some "function" ∧
    c_kind_name lang K_NAME = some "name" ∧
    c_kind_name lang K_POINTER = some "pointer" ∧
    c_kind_name lang K_PTR_TO_MEMBER = some "pointer-to-member" ∧
    c_kind_name lang K_REFERENCE = some "reference" ∧
    c_kind_name lang K_ENUM_CLASS_STRUCT_UNION =
      some (if LANG_CPP_MIN ≤ langBit lang then "enum, class, struct, or union"
            else if LANG_C_89 ≤ langBit lang then "enum, struct, or union"
            else "struct or union") ∧
    (∀ kind : Nat,
      (c_kind_name lang kind).isNone = true ↔
        kind ∉ [K_NONE, K_ARRAY, K_BLOCK, K_BUILTIN, K_FUNCTION, K_NAME, K_POINTER,
          K_PTR_TO_MEMBER, K_REFERENCE, K_ENUM_CLASS_STRUCT_UNION]) := by
  refine ⟨rfl, rfl, rfl, rfl, rfl, rfl, rfl, rfl, rfl, rfl, ?_⟩
  intro kind
  constructor
  · intro hnone hmem
    fin_cases hmem <;>
      simp [c_kind_name, K_NONE, K_ARRAY, K_BLOCK, K_BUILTIN, K_ENUM_CLASS_STRUCT_UNION,
        K_FUNCTION, K_NAME, K_POINTER, K_PTR_TO_MEMBER, K_REFERENCE] at hnone
  · intro hmem
    have h1 : kind ≠ K_NONE := fun h => hmem (by simp [h])
    have h2 : kind ≠ K_ARRAY := fun h => hmem (by simp [h])
    have h3 : kind ≠ K_BLOCK := fun h => hmem (by simp [h])
    have h4 : kind ≠ K_BUILTIN := fun h => hmem (by simp [h])
    have h5 : kind ≠ K_FUNCTION := fun h => hmem (by simp [h])
    have h6 : kind ≠ K_NAME := fun h => hmem (by simp [h])
    have h7 : kind ≠ K_POINTER := fun h => hmem (by simp [h])
    have h8 : kind ≠ K_PTR_TO_MEMBER := fun h => hmem (by simp [h])
    have h9 : kind ≠ K_REFERENCE := fun h => hmem (by simp [h])
    have h10 : kind ≠ K_ENUM_CLASS_STRUCT_UNION := fun h => hmem (by simp [h])
    simp [c_kind_name, h1, h2, h3, h4, h5, h6, h7, h8, h9, h10]

/--
Claim C6, witness: in K&R C the enum/class/struct/union kind is named
"struct or union", and the out-of-range kind value 5 has no name.
-/
theorem claim_C6_witness :
    c_kind_name Lang.c_knr K_ENUM_CLASS_STRUCT_UNION = some "struct or union" ∧
    (c_kind_name Lang.c_knr 5).isNone = true := by
  constructor
  · rw [(claim_C6_c_kind_name Lang.c_knr).2.2.2.2.2.2.2.2.2.1]
    rfl
  · exact ((claim_C6_c_kind_name Lang.c_knr).2.2.2.2.2.2.2.2.2.2 5).mpr (by decide)

/--
Claim C7 (code bug): allocating increments the live-node counter by
exactly one and freeing a null node decrements nothing, as claimed; but
freeing a `K_FUNCTION` (or `K_BLOCK`) root does NOT recurse into its
owned return-type node — the `switch` in `c_ast_free` frees the argument
list only — so a function node owning a single return-type node (2 owned
nodes in total) decrements the counter by only 1.  For trees without
function/block return types the decrement does equal the owned-node count
(pointer to array of built-in: 3).
-/
theorem claim_C7_free_leaks_ret :
    c_ast_free_dec none = 0 ∧
    (∀ n : Nat, c_ast_new_count n = n + 1) ∧
    c_ast_owned_nodes
      (some (CAst.func none T_NONE [] (some (CAst.builtin none T_INT)))) = 2 ∧
    c_ast_free_dec
      (some (CAst.func none T_NONE [] (some (CAst.builtin none T_INT)))) = 1 ∧
    c_ast_owned_nodes
      (some (CAst.pointer none T_NONE
        (some (CAst.array none none (some (CAst.builtin none T_INT)))))) = 3 ∧
    c_ast_free_dec
      (some (CAst.pointer none T_NONE
        (some (CAst.array none none (some (CAst.builtin none T_INT)))))) = 3 := by
  exact ⟨rfl, fun n => rfl, rfl, rfl, rfl, rfl⟩

/--
Claim C10: the English renderer treats a block node exactly like a
built-in type node carrying the same type: it prints only the node's type
name (the `K_BLOCK` case falls through to `K_BUILTIN`), rendering neither
the block's parameter list nor its return type.
-/
theorem claim_C10_block_english (mode : CMode) (lang : Lang) (name : Option String)
    (type : Nat) (args : List CAst) (ret : Option CAst) :
    c_ast_english mode lang (CAst.block name type args ret) =
      c_ast_english mode lang (CAst.builtin name type) ∧
    c_ast_english mode lang (CAst.block name type args ret) =
      c_type_name mode lang type := by
  exact ⟨rfl, rfl⟩

/--
Claim C10, witness: a block with an argument and a return type renders in
English exactly as the bare built-in type `int` does.
-/
theorem claim_C10_witness :
    c_ast_english CMode.gibberish_to_english Lang.c_89
      (CAst.block none T_INT [CAst.builtin none T_CHAR]
        (some (CAst.builtin none T_VOID))) =
      c_ast_english CMode.gibberish_to_english Lang.c_89 (CAst.builtin none T_INT) :=
  (claim_C10_block_english CMode.gibberish_to_english Lang.c_89 none T_INT
    [CAst.builtin none T_CHAR] (some (CAst.builtin none T_VOID))).1

/-- Data for each scope of an sname (struct `c_scope_data` of
`src/c_sname.h`): the scope's name and its scope type (a `c_type_t`). -/
structure c_scope_data where
  name : String
  type : Nat
  deriving DecidableEq

/-- Modelled from the spec: `slist.h`/`slist.c` are not under `src/`.  An
sname is an ordered sequence of scope segments, outermost first; it is
embedded as a Lean list.  `slist_peek_atr l roffset` returns the element
at reverse offset `roffset` (0 is the tail), or `none` out of range. -/
def slist_peek_atr {α : Type} (l : List α) (roffset : Nat) : Option α :=
  l.reverse[roffset]?

/-- In-place update of the element at (forward) index `i` (the effect of
writing through the peeked node's data pointer). -/
def listModify {α : Type} (f : α → α) : Nat → List α → List α
  | _, [] => []
  | 0, a :: as => f a :: as
  | n + 1, a :: as => a :: listModify f n as

/-- Function `c_sname_count` of `src/c_sname.h`. -/
def c_sname_count (sname : List c_scope_data) : Nat := sname.length

/-- Function `c_sname_set_local_type` of `src/c_sname.h`: writes the type
of the tail segment through `sname->tail` with no null check; on an empty
sname the tail pointer is NULL and the write crashes, embedded as
`none`. -/
def c_sname_set_local_type (sname : List c_scope_data) (type : Nat) :
    Option (List c_scope_data) :=
  match sname.getLast? with
  | none => none
  | some _ => some (listModify (fun d => { d with type := type }) (sname.length - 1) sname)

/-- Function `c_sname_set_scope_type` of `src/c_sname.h`: peeks the
segment at reverse offset 1 (the next-most inner scope) and does nothing
if it is absent. -/
def c_sname_set_scope_type (sname : List c_scope_data) (type : Nat) :
    List c_scope_data :=
  match slist_peek_atr sname 1 with
  | none => sname
  | some _ => listModify (fun d => { d with type := type }) (sname.length - 2) sname

/-- Modelled from the spec: `c_sname.c` is not under `src/` (only the
declaration of `c_sname_match` in `src/c_sname.h` is).  Glob matching on
one `::`-component: `*` matches zero or more characters within the
component (a star consumes some suffix of the component), any other
character matches itself. -/
def globCharsMatch : List Char → List Char → Bool
  | [], s => s.isEmpty
  | '*' :: ps, s => s.tails.any (fun t => globCharsMatch ps t)
  | _ :: _, [] => false
  | p :: ps, c :: cs => p == c && globCharsMatch ps cs

/-- Componentwise matching of a name's components against a pattern's
components; a `*` never crosses a component boundary by construction. -/
def listCompsMatch : List (List Char) → List (List Char) → Bool
  | [], [] => true
  | n :: ns, c :: cs => globCharsMatch c n && listCompsMatch ns cs
  | _, _ => false

/-- Splitting a character list on `::` into components. -/
def splitScopesChars : List Char → List Char → List (List Char)
  | [], acc => [acc.reverse]
  | ':' :: ':' :: rest, acc => acc.reverse :: splitScopesChars rest []
  | c :: rest, acc => splitScopesChars rest (c :: acc)

/-- Splitting a string on `::` into components. -/
def splitScopes (s : String) : List (List Char) := splitScopesChars s.toList []

/-- Modelled from the spec: function `c_sname_match` (its implementation,
`c_sname.c`, is not under `src/`).  The pattern is a sequence of
`::`-separated components, each optionally containing `*` matching zero
or more characters within that single component only; a pattern whose
first component is `**` additionally matches any number of enclosing
scopes (the innermost components must match); without a leading `**` the
pattern must have exactly as many components as the name. -/
def c_sname_match (sname : List c_scope_data) (glob : String) : Bool :=
  if (splitScopes glob).head? = some ['*', '*'] then
    decide ((splitScopes glob).tail.length ≤ sname.length) &&
      listCompsMatch
        ((sname.map (fun d => d.name.toList)).drop
          (sname.length - (splitScopes glob).tail.length))
        (splitScopes glob).tail
  else
    (sname.length == (splitScopes glob).length) &&
      listCompsMatch (sname.map (fun d => d.name.toList)) (splitScopes glob)

/-- Modelled from the spec: function `c_sname_parse` (implementation not
under `src/`): parses `a::b::c` into an sname of three segments with type
`T_NONE`. -/
def c_sname_parse (s : String) : List c_scope_data :=
  (splitScopes s).map (fun n => ⟨String.mk n, T_NONE⟩)

theorem listModify_append {α : Type} (f : α → α) (rest : List α) (d : α) (t : List α) :
    listModify f rest.length (rest ++ d :: t) = rest ++ f d :: t := by
  induction rest with
  | nil => rfl
  | cons a as ih => simp [listModify, ih]

/--
Claim C9: `c_sname_set_local_type` unconditionally dereferences the tail
segment, so it is safe only when the sname is non-empty (embedded: it
returns `none` exactly on the empty sname); on a non-empty sname it sets
exactly the last segment's type.  By contrast `c_sname_set_scope_type` on
an sname with fewer than two segments is a no-op, and with at least two
segments it sets exactly the second-to-last segment's type.
-/
theorem claim_C9_set_type (sname : List c_scope_data) (type : Nat) :
    (c_sname_set_local_type sname type = none ↔ sname = []) ∧
    (∀ (rest : List c_scope_data) (d : c_scope_data), sname = rest ++ [d] →
      c_sname_set_local_type sname type = some (rest ++ [{ d with type := type }])) ∧
    (c_sname_count sname < 2 → c_sname_set_scope_type sname type = sname) ∧
    (∀ (rest : List c_scope_data) (d1 d2 : c_scope_data), sname = rest ++ [d1, d2] →
      c_sname_set_scope_type sname type = rest ++ [{ d1 with type := type }, d2]) := by
  refine ⟨?_, ?_, ?_, ?_⟩
  · unfold c_sname_set_local_type
    cases h : sname.getLast? with
    | none => exact iff_of_true rfl (List.getLast?_eq_none_iff.mp h)
    | some d =>
      refine iff_of_false (by simp) (fun heq => ?_)
      rw [heq] at h
      exact Option.noConfusion h
  · intro rest d hs
    subst hs
    unfold c_sname_set_local_type
    rw [List.getLast?_concat]
    have hidx : (rest ++ [d]).length - 1 = rest.length := by simp
    rw [hidx, listModify_append]
  · intro hlt
    unfold c_sname_set_scope_type slist_peek_atr
    have h1 : sname.reverse[1]? = none := by
      refine List.getElem?_eq_none_iff.mpr ?_
      simp only [c_sname_count] at hlt
      simp only [List.length_reverse]
      omega
    rw [h1]
  · intro rest d1 d2 hs
    subst hs
    unfold c_sname_set_scope_type slist_peek_atr
    have h1 : (rest ++ [d1, d2]).reverse[1]? = some d1 := by
      simp [List.reverse_append]
    rw [h1]
    have hidx : (rest ++ [d1, d2]).length - 2 = rest.length := by simp
    rw [hidx, listModify_append]

/--
Claim C9, witness: setting the local type of `S::x` updates exactly the
type of `x`, and setting the scope type of the single-segment sname `x`
leaves it unchanged.
-/
theorem claim_C9_witness :
    c_sname_set_local_type [⟨"S", T_NONE⟩, ⟨"x", T_NONE⟩] T_STRUCT =
      some [⟨"S", T_NONE⟩, ⟨"x", T_STRUCT⟩] ∧
    c_sname_set_scope_type [⟨"x", T_NONE⟩] T_STRUCT = [⟨"x", T_NONE⟩] := by
  constructor
  · exact (claim_C9_set_type [⟨"S", T_NONE⟩, ⟨"x", T_NONE⟩] T_STRUCT).2.1
      [⟨"S", T_NONE⟩] ⟨"x", T_NONE⟩ rfl
  · exact (claim_C9_set_type [⟨"x", T_NONE⟩] T_STRUCT).2.2.1 (by decide)

theorem globCharsMatch_star_all (s : List Char) : globCharsMatch ['*'] s = true := by
  induction s with
  | nil => rfl
  | cons c cs ih =>
    simp only [globCharsMatch] at ih ⊢
    rw [List.tails_cons, List.any_cons]
    simp only [List.isEmpty_cons, Bool.false_or]
    exact ih

/--
Claim C8: a component wildcard `*` matches zero or more characters within
a single `::`-component and never crosses a `::` (without a leading `**`
a match forces the name to have exactly as many components as the
pattern); a leading `**` matches any number of enclosing scopes (a match
is preserved under prepending scopes); and concretely:
`a::b::c` matches `a::*::c`, `x::c` does not match `a::*::c`,
`s::foo` matches `**::foo`, and `foo` matches `**::foo`.
-/
theorem claim_C8_sname_match :
    (∀ s : List Char, globCharsMatch ['*'] s = true) ∧
    (∀ (sname : List c_scope_data) (glob : String) (firstComp : List Char)
        (rest : List (List Char)),
      splitScopes glob = firstComp :: rest → firstComp ≠ ['*', '*'] →
      c_sname_match sname glob = true → sname.length = (firstComp :: rest).length) ∧
    (∀ (pre sname : List c_scope_data) (glob : String) (rest : List (List Char)),
      splitScopes glob = ['*', '*'] :: rest →
      c_sname_match sname glob = true →
      c_sname_match (pre ++ sname) glob = true) ∧
    c_sname_match (c_sname_parse "a::b::c") "a::*::c" = true ∧
    c_sname_match (c_sname_parse "x::c") "a::*::c" = false ∧
    c_sname_match (c_sname_parse "s::foo") "**::foo" = true ∧
    c_sname_match (c_sname_parse "foo") "**::foo" = true := by
  refine ⟨globCharsMatch_star_all, ?_, ?_, by decide, by decide, by decide, by decide⟩
  · intro sname glob firstComp rest hsplit hne hmatch
    unfold c_sname_match at hmatch
    rw [hsplit] at hmatch
    rw [if_neg (by simp [hne])] at hmatch
    simp only [Bool.and_eq_true, beq_iff_eq] at hmatch
    exact hmatch.1
  · intro pre sname glob rest hsplit hmatch
    unfold c_sname_match at hmatch ⊢
    rw [hsplit] at hmatch ⊢
    rw [if_pos (by simp)] at hmatch ⊢
    simp only [List.tail_cons] at hmatch ⊢
    simp only [Bool.and_eq_true, decide_eq_true_eq] at hmatch
    obtain ⟨hle, hcomp⟩ := hmatch
    have hle2 : rest.length ≤ (pre ++ sname).length := by
      simp only [List.length_append]
      omega
    simp only [Bool.and_eq_true, decide_eq_true_eq]
    refine ⟨hle2, ?_⟩
    have hmap : (pre ++ sname).map (fun d => d.name.toList) =
        pre.map (fun d => d.name.toList) ++ sname.map (fun d => d.name.toList) :=
      List.map_append ..
    have hidx : (pre ++ sname).length - rest.length =
        (pre.map (fun d => d.name.toList)).length + (sname.length - rest.length) := by
      simp only [List.length_append, List.length_map]
      omega
    rw [hmap, hidx, List.drop_append]
    exact hcomp

/--
Claim C8, witness: prepending the scope `s` to a name matching `**::foo`
preserves the match, and `*` matches the whole component `ab`.
-/
theorem claim_C8_witness :
    c_sname_match ([⟨"s", T_NONE⟩] ++ c_sname_parse "foo") "**::foo" = true ∧
    globCharsMatch ['*'] ['a', 'b'] = true := by
  constructor
  · exact claim_C8_sname_match.2.2.1 [⟨"s", T_NONE⟩] (c_sname_parse "foo") "**::foo"
      [['f', 'o', 'o']] (by decide) (by decide)
  · exact claim_C8_sname_match.1 ['a', 'b']

end Cdecl
